import Mathlib

/-!
# light-locker: the lock coordinator of `src/gs-monitor.c`

A shallow embedding of the event handlers of `gs-monitor.c` and theorems about them.

* The private data of the monitor (`struct GSMonitorPrivate`) is a record.
* The three collaborators (`GSListener`, `GSListenerX11`, `GSManager`) live in other
  files.  Every call the monitor makes on them that is not a plain getter is appended
  to a log (`GSMonitor.calls`), in program order.  The answer of a collaborator that the
  monitor cannot compute itself (the `gboolean` of `gs_listener_set_active`, of
  `gs_listener_x11_force_blanking`, ...) is an extra argument of the handler.
* `g_get_real_time ()` is the argument `now`, a `gint64` number of microseconds.
* `g_timeout_add_seconds` is logged as a call; the firing of the timer is the separate
  step that runs the `GSourceFunc`.
-/

namespace GsMonitor

/-! ## Machine integers -/

/-- Smallest `gint64`. -/
def G_MININT64 : Int := -(2 ^ 63)

/-- Largest `gint64`. -/
def G_MAXINT64 : Int := 2 ^ 63 - 1

/-- Membership in the range of `gint64`. -/
def is_gint64 (x : Int) : Prop := G_MININT64 ≤ x ∧ x ≤ G_MAXINT64

instance (x : Int) : Decidable (is_gint64 x) := by
  unfold is_gint64; infer_instance

/-- Two's complement reduction of a mathematical integer to `gint64`. -/
def wrap_gint64 (x : Int) : Int := (x + 2 ^ 63) % 2 ^ 64 - 2 ^ 63

/-- Conversion of a `gint64` to `gulong` (`unsigned long`, 64 bits on LP64). -/
def to_gulong (x : Int) : Int := x % 2 ^ 64

/-! ## Collaborators -/

/-- The two functions of this file that are handed to `g_timeout_add_seconds`. -/
inductive GSourceFunc where
  | gs_monitor_lock_session
  | gs_monitor_switch_greeter
  deriving DecidableEq, Repr

/-- A call made by the monitor on a collaborator or on the main loop. -/
inductive Cmd where
  | gs_listener_set_active (active : Bool)
  | gs_listener_send_lock_session
  | gs_listener_send_switch_greeter
  | gs_listener_acquire
  | gs_listener_x11_acquire
  | gs_listener_x11_simulate_activity
  | gs_listener_x11_force_blanking (active : Bool)
  | gs_listener_x11_inhibit (active : Bool)
  | gs_listener_x11_idle_time
  | gs_manager_set_active (active : Bool)
  | gs_manager_set_session_visible (visible : Bool)
  | gs_manager_set_blank_screen (blank_screen : Bool)
  | gs_manager_set_lock_after (lock_after : Int)
  | gs_manager_show_content
  | g_timeout_add_seconds (interval : Nat) (function : GSourceFunc)
  deriving DecidableEq, Repr

/-- Modelled from the spec: the presentation manager (`gs-manager.c`, not part of the
sources at hand) "tracks whether the lock screen is active and whether content is
hidden, and exposes simple accessors/mutators": `get_active`, `set_active`,
`get_session_visible`, `set_session_visible`, `get_blank_screen`, `set_blank_screen`,
`set_lock_after`. -/
structure GSManager where
  active : Bool
  visible : Bool
  blank_screen : Bool
  lock_after : Int
  deriving DecidableEq, Repr

/-- The fields of `struct GSMonitorPrivate`; `listener` and `listener_x11` carry no state
that the monitor reads, they are represented by the calls made on them. -/
structure GSMonitorPrivate where
  manager : GSManager
  blank_start : Int
  late_locking : Bool
  lock_on_suspend : Bool
  perform_lock : Bool
  deriving DecidableEq, Repr

/-- The monitor together with the log of the calls it has made so far. -/
structure GSMonitor where
  priv : GSMonitorPrivate
  calls : List Cmd
  deriving DecidableEq, Repr

/-- Append one call to the log. -/
def call (c : Cmd) (monitor : GSMonitor) : GSMonitor :=
  { monitor with calls := monitor.calls ++ [c] }

/-- Replace the manager's state. -/
def with_manager (m : GSManager) (monitor : GSMonitor) : GSMonitor :=
  { monitor with priv := { monitor.priv with manager := m } }

/-- Modelled from the spec: `get_active() -> bool` of the presentation manager. -/
def gs_manager_get_active (manager : GSManager) : Bool := manager.active

/-- Modelled from the spec: `get_session_visible() -> bool` of the presentation manager. -/
def gs_manager_get_session_visible (manager : GSManager) : Bool := manager.visible

/-- Modelled from the spec: `get_blank_screen() -> bool` of the presentation manager. -/
def gs_manager_get_blank_screen (manager : GSManager) : Bool := manager.blank_screen

/-- Modelled from the spec: `set_session_visible(bool)` of the presentation manager. -/
def gs_manager_set_session_visible (visible : Bool) (monitor : GSMonitor) : GSMonitor :=
  with_manager { monitor.priv.manager with visible := visible }
    (call (Cmd.gs_manager_set_session_visible visible) monitor)

/-- Modelled from the spec: `set_blank_screen(bool)` of the presentation manager. -/
def gs_manager_set_blank_screen (blank_screen : Bool) (monitor : GSMonitor) : GSMonitor :=
  with_manager { monitor.priv.manager with blank_screen := blank_screen }
    (call (Cmd.gs_manager_set_blank_screen blank_screen) monitor)

/-- Modelled from the spec: `set_lock_after(seconds)` of the presentation manager. -/
def gs_manager_set_lock_after (lock_after : Int) (monitor : GSMonitor) : GSMonitor :=
  with_manager { monitor.priv.manager with lock_after := lock_after }
    (call (Cmd.gs_manager_set_lock_after lock_after) monitor)

/-- Modelled from the spec: `set_active(bool) -> bool` of the presentation manager; `res`
is the manager's answer, and the active flag changes only when the answer is `TRUE`. -/
def gs_manager_set_active (active : Bool) (res : Bool) (monitor : GSMonitor) :
    Bool × GSMonitor :=
  let monitor := call (Cmd.gs_manager_set_active active) monitor
  (res, if res then with_manager { monitor.priv.manager with active := active } monitor
        else monitor)

/-- Modelled from the spec: `show_content()` of the presentation manager. -/
def gs_manager_show_content (monitor : GSMonitor) : GSMonitor :=
  call Cmd.gs_manager_show_content monitor

/-- Modelled from the spec: `gs_listener_set_active` of the session listener
(`gs-listener-dbus.c`, not part of the sources at hand): "command it to become active
(locked). Failure to activate is non-fatal: logged, state otherwise unchanged (the
system remains unlocked ...)".  `res` is the listener's answer. -/
def gs_listener_set_active (active : Bool) (res : Bool) (monitor : GSMonitor) :
    Bool × GSMonitor :=
  let monitor := call (Cmd.gs_listener_set_active active) monitor
  (res, if res then with_manager { monitor.priv.manager with active := active } monitor
        else monitor)

/-- The call `gs_listener_send_lock_session (monitor->priv->listener)`. -/
def gs_listener_send_lock_session (monitor : GSMonitor) : GSMonitor :=
  call Cmd.gs_listener_send_lock_session monitor

/-- The call `gs_listener_send_switch_greeter (monitor->priv->listener)`. -/
def gs_listener_send_switch_greeter (monitor : GSMonitor) : GSMonitor :=
  call Cmd.gs_listener_send_switch_greeter monitor

/-- The call `g_timeout_add_seconds (interval, function, monitor)`. -/
def g_timeout_add_seconds (interval : Nat) (function : GSourceFunc) (monitor : GSMonitor) :
    GSMonitor :=
  call (Cmd.g_timeout_add_seconds interval function) monitor

/-! ## The functions of `gs-monitor.c` -/

/-- Source: `gs_monitor_lock_screen`, lines 74-89. -/
def gs_monitor_lock_screen (res : Bool) (monitor : GSMonitor) : GSMonitor :=
  let active := gs_manager_get_active monitor.priv.manager
  if !active then
    -- a failure is only reported with gs_debug
    (gs_listener_set_active true res monitor).2
  else
    monitor

/-- Source: `gs_monitor_lock_session`, lines 91-104. -/
def gs_monitor_lock_session (monitor : GSMonitor) : Bool × GSMonitor :=
  let visible := gs_manager_get_session_visible monitor.priv.manager
  -- Only switch to greeter if we are the visible session
  if visible then
    (false, gs_listener_send_lock_session monitor)
  else
    (false, monitor)

/-- Source: `gs_monitor_switch_greeter`, lines 106-119. -/
def gs_monitor_switch_greeter (monitor : GSMonitor) : Bool × GSMonitor :=
  let visible := gs_manager_get_session_visible monitor.priv.manager
  -- Only switch to greeter if we are the visible session
  if visible then
    (false, gs_listener_send_switch_greeter monitor)
  else
    (false, monitor)

/-- Source: `manager_activated_cb`, lines 121-125. -/
def manager_activated_cb (monitor : GSMonitor) : GSMonitor := monitor

/-- Source: `manager_switch_greeter_cb`, lines 127-132. -/
def manager_switch_greeter_cb (monitor : GSMonitor) : GSMonitor :=
  gs_listener_send_switch_greeter monitor

/-- Source: `manager_lock_cb`, lines 134-151. -/
def manager_lock_cb (res : Bool) (monitor : GSMonitor) : GSMonitor :=
  let monitor := gs_monitor_lock_screen res monitor
  if monitor.priv.late_locking then
    { monitor with priv := { monitor.priv with perform_lock := true } }
  else if gs_manager_get_session_visible monitor.priv.manager then
    -- Add a 1s delay for VT switching.
    g_timeout_add_seconds 1 GSourceFunc.gs_monitor_lock_session monitor
  else
    gs_manager_show_content monitor

/-- Source: `listener_locked_cb`, lines 153-160. -/
def listener_locked_cb (res : Bool) (monitor : GSMonitor) : GSMonitor :=
  let monitor := gs_manager_show_content monitor
  let monitor := gs_monitor_lock_screen res monitor
  { monitor with priv := { monitor.priv with perform_lock := false } }

/-- Source: `listener_lock_cb`, lines 162-177. -/
def listener_lock_cb (res : Bool) (monitor : GSMonitor) : GSMonitor :=
  let monitor := gs_monitor_lock_screen res monitor
  if gs_manager_get_session_visible monitor.priv.manager then
    -- Add a 1s delay for VT switching.
    g_timeout_add_seconds 1 GSourceFunc.gs_monitor_lock_session monitor
  else
    gs_manager_show_content monitor

/-- Source: `listener_session_switched_cb`, lines 179-186. -/
def listener_session_switched_cb (active : Bool) (monitor : GSMonitor) : GSMonitor :=
  gs_manager_set_session_visible active monitor

/-- Source: `listener_active_changed_cb`, lines 188-208. -/
def listener_active_changed_cb (active : Bool) (res : Bool) (monitor : GSMonitor) :
    Bool × GSMonitor :=
  let r := gs_manager_set_active active res monitor
  if !r.1 then
    (false, r.2)
  else
    (true, r.2)

/-- Source: `listener_suspend_cb`, lines 210-221. -/
def listener_suspend_cb (res : Bool) (monitor : GSMonitor) : GSMonitor :=
  if !monitor.priv.lock_on_suspend then
    monitor
  else
    -- Show the lock screen until resume.
    gs_monitor_lock_screen res monitor

/-- Source: `listener_resume_cb`, lines 223-235. -/
def listener_resume_cb (monitor : GSMonitor) : GSMonitor :=
  if !monitor.priv.lock_on_suspend then
    monitor
  else
    -- Add a 1s delay for resume to complete.
    g_timeout_add_seconds 1 GSourceFunc.gs_monitor_switch_greeter monitor

/-- Source: `listener_simulate_user_activity_cb`, lines 237-242. -/
def listener_simulate_user_activity_cb (monitor : GSMonitor) : GSMonitor :=
  call Cmd.gs_listener_x11_simulate_activity monitor

/-- Source: `listener_blanking_cb`, lines 244-257; `answer` is what
`gs_listener_x11_force_blanking` returns when it is called. -/
def listener_blanking_cb (active : Bool) (answer : Bool) (monitor : GSMonitor) :
    Bool × GSMonitor :=
  if !active then
    -- Don't deactivate the screensaver if we are locked
    if gs_manager_get_active monitor.priv.manager then
      (false, monitor)
    else
      (answer, call (Cmd.gs_listener_x11_force_blanking active) monitor)
  else
    (answer, call (Cmd.gs_listener_x11_force_blanking active) monitor)

/-- Source: `listener_inhibit_cb`, lines 259-265. -/
def listener_inhibit_cb (active : Bool) (monitor : GSMonitor) : GSMonitor :=
  call (Cmd.gs_listener_x11_inhibit active) monitor

/-- Source: `listener_is_blanked_cb`, lines 267-276. -/
def listener_is_blanked_cb (monitor : GSMonitor) : Bool × GSMonitor :=
  -- As long as we are locked, we tell that the screensaver is active
  if gs_manager_get_active monitor.priv.manager then
    (true, monitor)
  else
    (gs_manager_get_blank_screen monitor.priv.manager, monitor)

/-- Source: `listener_blanked_time_cb`, lines 278-298; the result is a `gulong`. -/
def listener_blanked_time_cb (now : Int) (monitor : GSMonitor) : Int × GSMonitor :=
  let secs : Int := 0
  -- The time is only valid if we are blanked
  let r := listener_is_blanked_cb monitor
  if r.1 then
    if now < r.2.priv.blank_start then
      (secs, r.2)
    else if r.2.priv.blank_start ≤ 0 then
      (secs, r.2)
    else
      (to_gulong (Int.tdiv (wrap_gint64 (now - r.2.priv.blank_start)) 1000000), r.2)
  else
    (secs, r.2)

/-- Source: `listener_idle_time_cb`, lines 300-305; `answer` is what
`gs_listener_x11_idle_time` returns. -/
def listener_idle_time_cb (answer : Int) (monitor : GSMonitor) : Int × GSMonitor :=
  (answer, call Cmd.gs_listener_x11_idle_time monitor)

/-- Source: `listener_x11_blanking_changed_cb`, lines 307-322. -/
def listener_x11_blanking_changed_cb (active : Bool) (now : Int) (monitor : GSMonitor) :
    GSMonitor :=
  let monitor := gs_manager_set_blank_screen active monitor
  let monitor :=
    if active then { monitor with priv := { monitor.priv with blank_start := now } }
    else monitor
  let monitor :=
    if !active && monitor.priv.perform_lock
        && gs_manager_get_session_visible monitor.priv.manager then
      gs_listener_send_lock_session monitor
    else monitor
  { monitor with priv := { monitor.priv with perform_lock := false } }

/-- Source: `gs_monitor_init`, lines 394-413: the private data is zero-filled by GObject;
the build-time defaults `WITH_LATE_LOCKING` and `WITH_LOCK_ON_SUSPEND` of `config.h` are
parameters. -/
def gs_monitor_init (with_late_locking with_lock_on_suspend : Bool) : GSMonitor :=
  { priv :=
      { manager := { active := false, visible := false, blank_screen := false,
                     lock_after := 0 }
        blank_start := 0
        late_locking := with_late_locking
        lock_on_suspend := with_lock_on_suspend
        perform_lock := false }
    calls := [] }

/-- Source: `gs_monitor_new`, lines 437-452. -/
def gs_monitor_new (with_late_locking with_lock_on_suspend : Bool)
    (lock_after_screensaver : Int) (late_locking lock_on_suspend : Bool) : GSMonitor :=
  let monitor := gs_monitor_init with_late_locking with_lock_on_suspend
  let monitor :=
    { monitor with priv := { monitor.priv with late_locking := late_locking } }
  let monitor :=
    { monitor with priv := { monitor.priv with lock_on_suspend := lock_on_suspend } }
  gs_manager_set_lock_after lock_after_screensaver monitor

/-- Source: `gs_monitor_start`, lines 454-467; `acquired` is the answer of
`gs_listener_acquire`, which carries the listener's error when it fails. -/
def gs_monitor_start {ε : Type} (acquired : Except ε Unit) (monitor : GSMonitor) :
    Except ε Unit × GSMonitor :=
  let monitor := call Cmd.gs_listener_acquire monitor
  match acquired with
  | Except.error e => (Except.error e, monitor)
  | Except.ok _ => (Except.ok (), call Cmd.gs_listener_x11_acquire monitor)

/-! ## Event dispatch -/

/-- The signals connected by `connect_listener_signals` and `connect_manager_signals`
(lines 343-392), each with the answers of the collaborators it consults, and the firing
of a timer installed with `g_timeout_add_seconds`. -/
inductive Event where
  | manager_activated
  | manager_switch_greeter
  | manager_lock (res : Bool)
  | listener_locked (res : Bool)
  | listener_lock (res : Bool)
  | listener_session_switched (active : Bool)
  | listener_active_changed (active : Bool) (res : Bool)
  | listener_suspend (res : Bool)
  | listener_resume
  | listener_simulate_user_activity
  | listener_blanking (active : Bool) (answer : Bool)
  | listener_inhibit (active : Bool)
  | listener_is_blanked
  | listener_blanked_time (now : Int)
  | listener_idle_time (answer : Int)
  | listener_x11_blanking_changed (active : Bool) (now : Int)
  | timeout (function : GSourceFunc)
  deriving DecidableEq, Repr

/-- Run the callback connected to a signal; the value handed back to the emitter is
dropped here. -/
def dispatch (ev : Event) (monitor : GSMonitor) : GSMonitor :=
  match ev with
  | Event.manager_activated => manager_activated_cb monitor
  | Event.manager_switch_greeter => manager_switch_greeter_cb monitor
  | Event.manager_lock res => manager_lock_cb res monitor
  | Event.listener_locked res => listener_locked_cb res monitor
  | Event.listener_lock res => listener_lock_cb res monitor
  | Event.listener_session_switched active => listener_session_switched_cb active monitor
  | Event.listener_active_changed active res =>
      (listener_active_changed_cb active res monitor).2
  | Event.listener_suspend res => listener_suspend_cb res monitor
  | Event.listener_resume => listener_resume_cb monitor
  | Event.listener_simulate_user_activity => listener_simulate_user_activity_cb monitor
  | Event.listener_blanking active answer => (listener_blanking_cb active answer monitor).2
  | Event.listener_inhibit active => listener_inhibit_cb active monitor
  | Event.listener_is_blanked => (listener_is_blanked_cb monitor).2
  | Event.listener_blanked_time now => (listener_blanked_time_cb now monitor).2
  | Event.listener_idle_time answer => (listener_idle_time_cb answer monitor).2
  | Event.listener_x11_blanking_changed active now =>
      listener_x11_blanking_changed_cb active now monitor
  | Event.timeout GSourceFunc.gs_monitor_lock_session => (gs_monitor_lock_session monitor).2
  | Event.timeout GSourceFunc.gs_monitor_switch_greeter =>
      (gs_monitor_switch_greeter monitor).2

/-- Handle a sequence of events, oldest first (single-threaded main loop). -/
def run (evs : List Event) (monitor : GSMonitor) : GSMonitor :=
  evs.foldl (fun m ev => dispatch ev m) monitor

/-- Number of `gs_listener_send_lock_session` calls made so far. -/
def lock_session_calls (monitor : GSMonitor) : Nat :=
  monitor.calls.count Cmd.gs_listener_send_lock_session

/-- Number of `gs_listener_send_switch_greeter` calls made so far. -/
def switch_greeter_calls (monitor : GSMonitor) : Nat :=
  monitor.calls.count Cmd.gs_listener_send_switch_greeter

/-! ## Event classes and sample states used in the statements -/

/-- Events that neither set `perform_lock` nor run the delayed `gs_monitor_lock_session`:
everything but the manager's `lock` signal and the firing of that timer. -/
def Event.quiet : Event → Bool
  | Event.manager_lock _ => false
  | Event.timeout GSourceFunc.gs_monitor_lock_session => false
  | _ => true

/-- The events "session switched" and "blanking changed". -/
def Event.is_switch_or_blanking : Event → Bool
  | Event.listener_session_switched _ => true
  | Event.listener_x11_blanking_changed _ _ => true
  | _ => false

/-- The events "blanking changed". -/
def Event.is_blanking_changed : Event → Bool
  | Event.listener_x11_blanking_changed _ _ => true
  | _ => false

/-- A monitor built with `late_locking = TRUE` whose session has become visible. -/
def visible_late_locking_monitor : GSMonitor :=
  run [Event.listener_session_switched true] (gs_monitor_new false false 300 true false)

/-- A monitor built with `late_locking = TRUE`, session not visible, after the manager's
`lock` signal: `perform_lock` is set. -/
def pending_lock_monitor : GSMonitor :=
  manager_lock_cb true (gs_monitor_new false false 300 true false)

/-- A monitor that is blanked since `1000000` and locked by the listener's `lock`
signal. -/
def locked_blanked_monitor : GSMonitor :=
  run [Event.listener_x11_blanking_changed true 1000000, Event.listener_lock true]
    (gs_monitor_new false false 300 false false)

/-! ## Theorems -/


/-- Appending a call never leaves the log as it was. -/
theorem calls_append_ne (l : List Cmd) (c : Cmd) : l ++ [c] ≠ l := by
  intro h
  have hlen := congrArg List.length h
  simp at hlen

/-- C1: a blanking request is refused, with `FALSE`, no call on the idle detector and
the monitor untouched, exactly when it asks to unblank (`active = FALSE`) while the
manager reports active (locked); in every other case exactly one
`gs_listener_x11_force_blanking (active)` call is appended and the detector's answer is
handed back unmodified. -/
theorem listener_blanking_cb_rejects_iff_unblank_while_locked
    (active answer : Bool) (monitor : GSMonitor) :
    listener_blanking_cb active answer monitor =
        (if active = false ∧ gs_manager_get_active monitor.priv.manager = true then
          (false, monitor)
        else
          (answer,
            { monitor with
              calls := monitor.calls ++ [Cmd.gs_listener_x11_force_blanking active] }))
      ∧ ((listener_blanking_cb active answer monitor).2.calls = monitor.calls ↔
          (active = false ∧ gs_manager_get_active monitor.priv.manager = true))
      ∧ (listener_blanking_cb active answer monitor).2.priv = monitor.priv := by
  cases active <;> cases h : gs_manager_get_active monitor.priv.manager <;>
    simp [listener_blanking_cb, call, h, calls_append_ne]

/-- C2: the is-blanked query answers `TRUE` whenever the manager reports active (locked),
whatever the blank-screen flag is, answers the manager's blank-screen flag when it does
not, and leaves the monitor and the log of calls as they were. -/
theorem listener_is_blanked_cb_locked_or_blank_screen (monitor : GSMonitor) :
    (listener_is_blanked_cb monitor).1 =
        (if gs_manager_get_active monitor.priv.manager = true then true
         else gs_manager_get_blank_screen monitor.priv.manager)
      ∧ (∀ blank_screen : Bool,
          (listener_is_blanked_cb
            (with_manager { active := true, visible := monitor.priv.manager.visible,
                            blank_screen := blank_screen,
                            lock_after := monitor.priv.manager.lock_after } monitor)).1
            = true)
      ∧ (listener_is_blanked_cb monitor).2 = monitor := by
  cases h : monitor.priv.manager.active <;>
    simp [listener_is_blanked_cb, with_manager, gs_manager_get_active, h]

theorem run_nil (monitor : GSMonitor) : run [] monitor = monitor := rfl

theorem run_cons (ev : Event) (evs : List Event) (monitor : GSMonitor) :
    run (ev :: evs) monitor = run evs (dispatch ev monitor) := rfl

/-- With no lock pending, a quiet event leaves none pending and sends no
`gs_listener_send_lock_session`. -/
theorem dispatch_quiet (ev : Event) (monitor : GSMonitor) (hq : ev.quiet = true)
    (hp : monitor.priv.perform_lock = false) :
    (dispatch ev monitor).priv.perform_lock = false
      ∧ lock_session_calls (dispatch ev monitor) = lock_session_calls monitor := by
  cases ev with
  | manager_lock res => simp [Event.quiet] at hq
  | timeout f =>
    cases f with
    | gs_monitor_lock_session => simp [Event.quiet] at hq
    | gs_monitor_switch_greeter =>
      simp only [dispatch, gs_monitor_switch_greeter, gs_listener_send_switch_greeter, call,
        lock_session_calls]
      split <;> simp [hp]
  | listener_x11_blanking_changed active now =>
    cases active <;>
      simp [dispatch, listener_x11_blanking_changed_cb, gs_manager_set_blank_screen,
        with_manager, call, lock_session_calls, hp]
  | listener_locked res =>
    cases res <;> cases h : monitor.priv.manager.active <;>
      simp [dispatch, listener_locked_cb, gs_monitor_lock_screen, gs_manager_show_content,
        gs_listener_set_active, gs_manager_get_active, with_manager, call,
        lock_session_calls, h]
  | listener_lock res =>
    cases res <;> cases h : monitor.priv.manager.active <;>
      cases hv : monitor.priv.manager.visible <;>
      simp [dispatch, listener_lock_cb, gs_monitor_lock_screen, gs_manager_show_content,
        gs_listener_set_active, gs_manager_get_active, gs_manager_get_session_visible,
        g_timeout_add_seconds, with_manager, call, lock_session_calls, h, hv, hp]
  | listener_suspend res =>
    cases res <;> cases h : monitor.priv.manager.active <;>
      cases hs : monitor.priv.lock_on_suspend <;>
      simp [dispatch, listener_suspend_cb, gs_monitor_lock_screen,
        gs_listener_set_active, gs_manager_get_active, with_manager, call,
        lock_session_calls, h, hs, hp]
  | listener_resume =>
    cases hs : monitor.priv.lock_on_suspend <;>
      simp [dispatch, listener_resume_cb, g_timeout_add_seconds, call,
        lock_session_calls, hs, hp]
  | listener_active_changed active res =>
    cases res <;>
      simp [dispatch, listener_active_changed_cb, gs_manager_set_active, with_manager, call,
        lock_session_calls, hp]
  | listener_blanking active answer =>
    cases active <;> cases h : monitor.priv.manager.active <;>
      simp [dispatch, listener_blanking_cb, gs_manager_get_active, call,
        lock_session_calls, h, hp]
  | listener_is_blanked =>
    cases h : monitor.priv.manager.active <;>
      simp [dispatch, listener_is_blanked_cb, gs_manager_get_active, lock_session_calls, h, hp]
  | listener_blanked_time now =>
    simp only [dispatch, listener_blanked_time_cb, listener_is_blanked_cb]
    repeat' split
    all_goals simp [hp]
  | manager_activated => simp [dispatch, manager_activated_cb, hp]
  | manager_switch_greeter =>
    simp [dispatch, manager_switch_greeter_cb, gs_listener_send_switch_greeter, call,
      lock_session_calls, hp]
  | listener_session_switched active =>
    simp [dispatch, listener_session_switched_cb, gs_manager_set_session_visible,
      with_manager, call, lock_session_calls, hp]
  | listener_simulate_user_activity =>
    simp [dispatch, listener_simulate_user_activity_cb, call, lock_session_calls, hp]
  | listener_inhibit active =>
    simp [dispatch, listener_inhibit_cb, call, lock_session_calls, hp]
  | listener_idle_time answer =>
    simp [dispatch, listener_idle_time_cb, call, lock_session_calls, hp]

/-- With no lock pending, a run of quiet events leaves none pending and sends no
`gs_listener_send_lock_session`. -/
theorem run_quiet (evs : List Event) :
    ∀ monitor : GSMonitor, (∀ ev ∈ evs, ev.quiet = true) →
      monitor.priv.perform_lock = false →
      (run evs monitor).priv.perform_lock = false
        ∧ lock_session_calls (run evs monitor) = lock_session_calls monitor := by
  induction evs with
  | nil => intro monitor _ hp; exact ⟨hp, rfl⟩
  | cons ev evs ih =>
    intro monitor hq hp
    have hstep := dispatch_quiet ev monitor (hq ev (List.mem_cons_self _ _)) hp
    have hrest := ih (dispatch ev monitor)
      (fun e he => hq e (List.mem_cons_of_mem _ he)) hstep.1
    rw [run_cons]
    exact ⟨hrest.1, hrest.2.trans hstep.2⟩

theorem quiet_of_is_switch_or_blanking (ev : Event) (h : ev.is_switch_or_blanking = true) :
    ev.quiet = true := by
  cases ev <;> simp [Event.is_switch_or_blanking] at h <;> rfl

/-- The effect of `listener_x11_blanking_changed_cb` on `perform_lock` and on the number
of `gs_listener_send_lock_session` calls. -/
theorem blanking_changed_effect (active : Bool) (now : Int) (monitor : GSMonitor) :
    (listener_x11_blanking_changed_cb active now monitor).priv.perform_lock = false
      ∧ (listener_x11_blanking_changed_cb active now monitor).priv.manager.visible
          = monitor.priv.manager.visible
      ∧ lock_session_calls (listener_x11_blanking_changed_cb active now monitor)
          = lock_session_calls monitor
            + (if active = false ∧ monitor.priv.perform_lock = true
                  ∧ monitor.priv.manager.visible = true then 1 else 0) := by
  cases active <;> cases hp : monitor.priv.perform_lock <;>
    cases hv : monitor.priv.manager.visible <;>
    simp [listener_x11_blanking_changed_cb, gs_manager_set_blank_screen,
      gs_manager_get_session_visible, gs_listener_send_lock_session, with_manager, call,
      lock_session_calls, hp, hv]

/-- The effect of `manager_lock_cb` under late locking. -/
theorem manager_lock_late_effect (res : Bool) (monitor : GSMonitor)
    (hl : monitor.priv.late_locking = true) :
    (manager_lock_cb res monitor).priv.perform_lock = true
      ∧ (manager_lock_cb res monitor).priv.manager.visible = monitor.priv.manager.visible
      ∧ lock_session_calls (manager_lock_cb res monitor) = lock_session_calls monitor := by
  cases res <;> cases ha : monitor.priv.manager.active <;>
    simp [manager_lock_cb, gs_monitor_lock_screen, gs_listener_set_active,
      gs_manager_get_active, with_manager, call, lock_session_calls, ha, hl]

/-- C3, as stated, fails: with late locking and a visible session, the manager's `lock`
signal followed by blanking-changed(TRUE) and blanking-changed(FALSE) sends no
`gs_listener_send_lock_session` at all, because blanking-changed(TRUE) already clears
`perform_lock`. -/
theorem lock_then_blanking_cycle_counterexample :
    visible_late_locking_monitor.priv.late_locking = true
      ∧ gs_manager_get_session_visible visible_late_locking_monitor.priv.manager = true
      ∧ lock_session_calls visible_late_locking_monitor = 0
      ∧ (run [Event.manager_lock true] visible_late_locking_monitor).priv.perform_lock = true
      ∧ (run [Event.manager_lock true, Event.listener_x11_blanking_changed true 1000000]
            visible_late_locking_monitor).priv.perform_lock = false
      ∧ lock_session_calls
          (run [Event.manager_lock true, Event.listener_x11_blanking_changed true 1000000,
                Event.listener_x11_blanking_changed false 2000000]
            visible_late_locking_monitor) = 0
      ∧ lock_session_calls
          (run [Event.manager_lock true, Event.listener_x11_blanking_changed true 1000000,
                Event.listener_x11_blanking_changed false 2000000]
            visible_late_locking_monitor)
          ≠ lock_session_calls visible_late_locking_monitor + 1 := by
  decide

/-- C3, amended: with late locking and a visible session, the manager's `lock` signal
followed directly by blanking-changed(FALSE) sends exactly one
`gs_listener_send_lock_session` and leaves `perform_lock` clear; a following blanking
cycle (TRUE then FALSE) without a new lock request sends no further one; and when
blanking-changed(TRUE) is handled between the lock request and blanking-changed(FALSE),
none is sent. -/
theorem lock_then_unblank_sends_one_lock_session
    (res : Bool) (now1 now2 now3 : Int) (monitor : GSMonitor)
    (hl : monitor.priv.late_locking = true)
    (hv : gs_manager_get_session_visible monitor.priv.manager = true) :
    lock_session_calls
        (run [Event.manager_lock res, Event.listener_x11_blanking_changed false now1] monitor)
        = lock_session_calls monitor + 1
      ∧ (run [Event.manager_lock res, Event.listener_x11_blanking_changed false now1]
            monitor).priv.perform_lock = false
      ∧ gs_manager_get_session_visible
          (run [Event.manager_lock res, Event.listener_x11_blanking_changed false now1]
            monitor).priv.manager = true
      ∧ lock_session_calls
          (run [Event.manager_lock res, Event.listener_x11_blanking_changed false now1,
                Event.listener_x11_blanking_changed true now2,
                Event.listener_x11_blanking_changed false now3] monitor)
          = lock_session_calls monitor + 1
      ∧ (run [Event.manager_lock res, Event.listener_x11_blanking_changed false now1,
                Event.listener_x11_blanking_changed true now2,
                Event.listener_x11_blanking_changed false now3]
            monitor).priv.perform_lock = false
      ∧ lock_session_calls
          (run [Event.manager_lock res, Event.listener_x11_blanking_changed true now1,
                Event.listener_x11_blanking_changed false now2] monitor)
          = lock_session_calls monitor := by
  simp only [gs_manager_get_session_visible] at hv
  have hlock := manager_lock_late_effect res monitor hl
  simp only [run_cons, run_nil, dispatch, gs_manager_get_session_visible]
  have e1 := blanking_changed_effect false now1 (manager_lock_cb res monitor)
  have e2 := blanking_changed_effect true now2
    (listener_x11_blanking_changed_cb false now1 (manager_lock_cb res monitor))
  have e3 := blanking_changed_effect false now3
    (listener_x11_blanking_changed_cb true now2
      (listener_x11_blanking_changed_cb false now1 (manager_lock_cb res monitor)))
  have f1 := blanking_changed_effect true now1 (manager_lock_cb res monitor)
  have f2 := blanking_changed_effect false now2
    (listener_x11_blanking_changed_cb true now1 (manager_lock_cb res monitor))
  simp only [hlock.1, hlock.2.1, hlock.2.2, hv, true_and, and_self, if_true] at e1
  simp only [e1.1, e1.2.1, e1.2.2, false_and, and_false, if_false, Bool.false_eq_true,
    Nat.add_zero, reduceCtorEq] at e2
  simp only [e2.1, e2.2.1, e2.2.2, false_and, and_false, if_false, Bool.false_eq_true,
    Nat.add_zero] at e3
  simp only [hlock.2.2, false_and, and_false, if_false, Bool.true_eq_false,
    Nat.add_zero] at f1
  simp only [f1.1, f1.2.2, false_and, and_false, if_false, Bool.false_eq_true,
    Nat.add_zero] at f2
  exact ⟨e1.2.2, e1.1, e1.2.1, e3.2.2, e3.1, f2.2.2⟩

/-- Witness for C3 (amended). -/
theorem lock_then_unblank_sends_one_lock_session_witness :
    visible_late_locking_monitor.priv.late_locking = true
      ∧ gs_manager_get_session_visible visible_late_locking_monitor.priv.manager = true
      ∧ lock_session_calls
          (run [Event.manager_lock true, Event.listener_x11_blanking_changed false 2000000]
            visible_late_locking_monitor)
          = lock_session_calls visible_late_locking_monitor + 1 :=
  ⟨by decide, by decide,
    (lock_then_unblank_sends_one_lock_session true 2000000 3000000 4000000
      visible_late_locking_monitor (by decide) (by decide)).1⟩

theorem quiet_of_is_blanking_changed (ev : Event) (h : ev.is_blanking_changed = true) :
    ev.quiet = true := by
  cases ev <;> first | rfl | simp [Event.is_blanking_changed] at h

/-- C4, as stated, fails: in a state with `perform_lock` set, blanking-changed(TRUE)
does not leave it set. -/
theorem blanking_started_clears_pending_lock_counterexample :
    pending_lock_monitor.priv.perform_lock = true
      ∧ (listener_x11_blanking_changed_cb true 1000000 pending_lock_monitor).priv.perform_lock
          ≠ true := by
  decide

/-- C4, amended: in a state with `perform_lock` set, the first blanking-changed event
handled, whether it reports TRUE or FALSE, clears `perform_lock`; it sends one
`gs_listener_send_lock_session` only when it reports FALSE and the session is visible,
and none otherwise; every further blanking-changed event finds `perform_lock` clear,
leaves it clear and sends nothing. -/
theorem pending_lock_cleared_by_first_blanking_changed
    (active : Bool) (now : Int) (evs : List Event) (monitor : GSMonitor)
    (hp : monitor.priv.perform_lock = true)
    (hevs : ∀ ev ∈ evs, ev.is_blanking_changed = true) :
    (listener_x11_blanking_changed_cb active now monitor).priv.perform_lock = false
      ∧ lock_session_calls (listener_x11_blanking_changed_cb active now monitor)
          = lock_session_calls monitor
            + (if active = false
                  ∧ gs_manager_get_session_visible monitor.priv.manager = true then 1
               else 0)
      ∧ (run evs (listener_x11_blanking_changed_cb active now monitor)).priv.perform_lock
          = false
      ∧ lock_session_calls (run evs (listener_x11_blanking_changed_cb active now monitor))
          = lock_session_calls (listener_x11_blanking_changed_cb active now monitor) := by
  have e := blanking_changed_effect active now monitor
  have r := run_quiet evs (listener_x11_blanking_changed_cb active now monitor)
    (fun ev he => quiet_of_is_blanking_changed ev (hevs ev he)) e.1
  refine ⟨e.1, ?_, r.1, r.2⟩
  rw [e.2.2]
  simp [hp, gs_manager_get_session_visible]

/-- Witness for C4 (amended). -/
theorem pending_lock_cleared_by_first_blanking_changed_witness :
    pending_lock_monitor.priv.perform_lock = true
      ∧ (∀ ev ∈ [Event.listener_x11_blanking_changed false 2000000,
                  Event.listener_x11_blanking_changed true 3000000],
            ev.is_blanking_changed = true)
      ∧ (listener_x11_blanking_changed_cb true 1000000 pending_lock_monitor).priv.perform_lock
          = false :=
  ⟨by decide, by decide,
    (pending_lock_cleared_by_first_blanking_changed true 1000000
      [Event.listener_x11_blanking_changed false 2000000,
       Event.listener_x11_blanking_changed true 3000000]
      pending_lock_monitor (by decide) (by decide)).1⟩

/-- C5: with `perform_lock` set and the session not visible, blanking-changed(FALSE)
sends no `gs_listener_send_lock_session` and leaves `perform_lock` clear; and no later
sequence of session-switched and blanking-changed events sends one either, so the
dropped lock is not retried when the session becomes visible again. -/
theorem pending_lock_for_invisible_session_is_dropped
    (now : Int) (evs : List Event) (monitor : GSMonitor)
    (_hp : monitor.priv.perform_lock = true)
    (hv : gs_manager_get_session_visible monitor.priv.manager = false)
    (hevs : ∀ ev ∈ evs, ev.is_switch_or_blanking = true) :
    lock_session_calls (listener_x11_blanking_changed_cb false now monitor)
        = lock_session_calls monitor
      ∧ (listener_x11_blanking_changed_cb false now monitor).priv.perform_lock = false
      ∧ lock_session_calls (run evs (listener_x11_blanking_changed_cb false now monitor))
          = lock_session_calls monitor
      ∧ (run evs (listener_x11_blanking_changed_cb false now monitor)).priv.perform_lock
          = false := by
  simp only [gs_manager_get_session_visible] at hv
  have e := blanking_changed_effect false now monitor
  have r := run_quiet evs (listener_x11_blanking_changed_cb false now monitor)
    (fun ev he => quiet_of_is_switch_or_blanking ev (hevs ev he)) e.1
  have h0 : lock_session_calls (listener_x11_blanking_changed_cb false now monitor)
      = lock_session_calls monitor := by
    rw [e.2.2]; simp [hv]
  exact ⟨h0, e.1, r.2.trans h0, r.1⟩

/-- Witness for C5. -/
theorem pending_lock_for_invisible_session_is_dropped_witness :
    pending_lock_monitor.priv.perform_lock = true
      ∧ gs_manager_get_session_visible pending_lock_monitor.priv.manager = false
      ∧ (∀ ev ∈ [Event.listener_session_switched true,
                  Event.listener_x11_blanking_changed true 3000000,
                  Event.listener_x11_blanking_changed false 4000000],
            ev.is_switch_or_blanking = true)
      ∧ lock_session_calls
          (run [Event.listener_session_switched true,
                Event.listener_x11_blanking_changed true 3000000,
                Event.listener_x11_blanking_changed false 4000000]
            (listener_x11_blanking_changed_cb false 2000000 pending_lock_monitor))
          = lock_session_calls pending_lock_monitor :=
  ⟨by decide, by decide, by decide,
    (pending_lock_for_invisible_session_is_dropped 2000000
      [Event.listener_session_switched true,
       Event.listener_x11_blanking_changed true 3000000,
       Event.listener_x11_blanking_changed false 4000000]
      pending_lock_monitor (by decide) (by decide) (by decide)).2.2.1⟩

/-- The value of the blanked-time query when `now` is a `gint64`. -/
theorem blanked_time_value (now : Int) (monitor : GSMonitor) (hnow : is_gint64 now) :
    (listener_blanked_time_cb now monitor).1 =
      (if (listener_is_blanked_cb monitor).1 = true ∧ 0 < monitor.priv.blank_start
            ∧ monitor.priv.blank_start ≤ now then
        (now - monitor.priv.blank_start) / 1000000
       else 0) := by
  have hsnd : (listener_is_blanked_cb monitor).2 = monitor := by
    simp only [listener_is_blanked_cb]; split <;> rfl
  obtain ⟨_, hmax⟩ := hnow
  simp only [G_MAXINT64] at hmax
  simp only [listener_blanked_time_cb, hsnd]
  cases hb : (listener_is_blanked_cb monitor).1
  · simp
  · by_cases h1 : now < monitor.priv.blank_start
    · have : ¬ monitor.priv.blank_start ≤ now := by omega
      simp [h1, this]
    · by_cases h2 : monitor.priv.blank_start ≤ 0
      · have : ¬ 0 < monitor.priv.blank_start := by omega
        simp [h1, h2, this]
      · have h3 : 0 < monitor.priv.blank_start := by omega
        have h4 : monitor.priv.blank_start ≤ now := by omega
        have hw : wrap_gint64 (now - monitor.priv.blank_start)
            = now - monitor.priv.blank_start := by
          unfold wrap_gint64; omega
        have hd : Int.tdiv (now - monitor.priv.blank_start) 1000000
            = (now - monitor.priv.blank_start) / 1000000 :=
          Int.tdiv_eq_ediv (by omega) (by norm_num)
        have hg : to_gulong ((now - monitor.priv.blank_start) / 1000000)
            = (now - monitor.priv.blank_start) / 1000000 := by
          unfold to_gulong; omega
        simp [h1, h2, h3, h4, hw, hd, hg]

/-- C7: the blanked-time query always produces an answer; for every `gint64` time `now`
it answers 0 when `blank_start` is unset (`<= 0`) or in the future, answers 0 when
is-blanked is false, and otherwise answers `(now - blank_start) / 1000000`, the whole
seconds elapsed; the answer is never negative and the monitor is left as it was. -/
theorem listener_blanked_time_cb_whole_seconds (now : Int) (monitor : GSMonitor)
    (hnow : is_gint64 now) :
    (listener_blanked_time_cb now monitor).2 = monitor
      ∧ 0 ≤ (listener_blanked_time_cb now monitor).1
      ∧ (monitor.priv.blank_start ≤ 0 ∨ now < monitor.priv.blank_start →
          (listener_blanked_time_cb now monitor).1 = 0)
      ∧ ((listener_is_blanked_cb monitor).1 = false →
          (listener_blanked_time_cb now monitor).1 = 0)
      ∧ ((listener_is_blanked_cb monitor).1 = true → 0 < monitor.priv.blank_start →
          monitor.priv.blank_start ≤ now →
          (listener_blanked_time_cb now monitor).1
              = (now - monitor.priv.blank_start) / 1000000
            ∧ 1000000 * (listener_blanked_time_cb now monitor).1
              ≤ now - monitor.priv.blank_start
            ∧ now - monitor.priv.blank_start
              < 1000000 * (listener_blanked_time_cb now monitor).1 + 1000000) := by
  have hval := blanked_time_value now monitor hnow
  refine ⟨?_, ?_, ?_, ?_, ?_⟩
  · simp only [listener_blanked_time_cb, listener_is_blanked_cb]
    repeat' split
    all_goals rfl
  · rw [hval]
    split
    · rename_i h
      exact Int.ediv_nonneg (by omega) (by norm_num)
    · exact le_refl 0
  · intro h
    rw [hval, if_neg]
    omega
  · intro h
    rw [hval, if_neg]
    simp [h]
  · intro hb h1 h2
    rw [hval, if_pos ⟨hb, h1, h2⟩]
    omega

/-- Witness for C7. -/
theorem listener_blanked_time_cb_whole_seconds_witness :
    is_gint64 7999999
      ∧ (listener_blanked_time_cb 7999999
          (listener_x11_blanking_changed_cb true 1000000 pending_lock_monitor)).1 = 6 :=
  ⟨by decide,
    ((listener_blanked_time_cb_whole_seconds 7999999
        (listener_x11_blanking_changed_cb true 1000000 pending_lock_monitor)
        (by decide)).2.2.2.2 (by decide) (by decide) (by decide)).1.trans (by decide)⟩

/-- C6: while the session is not visible, the handlers of a lock request
(`manager_lock_cb`, `listener_lock_cb`) and of resume (`listener_resume_cb`) send
neither `gs_listener_send_lock_session` nor `gs_listener_send_switch_greeter`, whatever
the policy flags are; the only calls they make are the lock attempt, show-content and,
for resume, the installation of the timer. -/
theorem lock_and_resume_send_nothing_while_invisible (res : Bool) (monitor : GSMonitor)
    (hv : gs_manager_get_session_visible monitor.priv.manager = false) :
    (lock_session_calls (manager_lock_cb res monitor) = lock_session_calls monitor
        ∧ switch_greeter_calls (manager_lock_cb res monitor) = switch_greeter_calls monitor)
      ∧ (lock_session_calls (listener_lock_cb res monitor) = lock_session_calls monitor
        ∧ switch_greeter_calls (listener_lock_cb res monitor)
            = switch_greeter_calls monitor)
      ∧ (lock_session_calls (listener_resume_cb monitor) = lock_session_calls monitor
        ∧ switch_greeter_calls (listener_resume_cb monitor) = switch_greeter_calls monitor)
      ∧ (manager_lock_cb res monitor).calls
          = monitor.calls
            ++ (if gs_manager_get_active monitor.priv.manager = true then []
                else [Cmd.gs_listener_set_active true])
            ++ (if monitor.priv.late_locking = true then []
                else [Cmd.gs_manager_show_content])
      ∧ (listener_lock_cb res monitor).calls
          = monitor.calls
            ++ (if gs_manager_get_active monitor.priv.manager = true then []
                else [Cmd.gs_listener_set_active true])
            ++ [Cmd.gs_manager_show_content]
      ∧ (listener_resume_cb monitor).calls
          = monitor.calls
            ++ (if monitor.priv.lock_on_suspend = true then
                  [Cmd.g_timeout_add_seconds 1 GSourceFunc.gs_monitor_switch_greeter]
                else []) := by
  simp only [gs_manager_get_session_visible] at hv
  cases res <;> cases ha : monitor.priv.manager.active <;>
    cases hl : monitor.priv.late_locking <;> cases hs : monitor.priv.lock_on_suspend <;>
    simp [manager_lock_cb, listener_lock_cb, listener_resume_cb, gs_monitor_lock_screen,
      gs_listener_set_active, gs_manager_get_active, gs_manager_get_session_visible,
      gs_manager_show_content, g_timeout_add_seconds, with_manager, call,
      lock_session_calls, switch_greeter_calls, ha, hl, hs, hv]

/-- Witness for C6. -/
theorem lock_and_resume_send_nothing_while_invisible_witness :
    gs_manager_get_session_visible (gs_monitor_new false false 300 false true).priv.manager
        = false
      ∧ lock_session_calls (manager_lock_cb true (gs_monitor_new false false 300 false true))
          = lock_session_calls (gs_monitor_new false false 300 false true)
      ∧ switch_greeter_calls (listener_resume_cb (gs_monitor_new false false 300 false true))
          = switch_greeter_calls (gs_monitor_new false false 300 false true) :=
  ⟨by decide,
    (lock_and_resume_send_nothing_while_invisible true
      (gs_monitor_new false false 300 false true) (by decide)).1.1,
    (lock_and_resume_send_nothing_while_invisible true
      (gs_monitor_new false false 300 false true) (by decide)).2.2.1.2⟩

/-- An event other than blanking-changed leaves `blank_start` and the manager's
blank-screen flag alone. -/
theorem dispatch_keeps_blank (ev : Event) (monitor : GSMonitor)
    (hq : ev.is_blanking_changed = false) :
    (dispatch ev monitor).priv.blank_start = monitor.priv.blank_start
      ∧ (dispatch ev monitor).priv.manager.blank_screen
          = monitor.priv.manager.blank_screen := by
  cases ev with
  | listener_x11_blanking_changed active now => simp [Event.is_blanking_changed] at hq
  | timeout f =>
    cases f <;> cases hv : monitor.priv.manager.visible <;>
      simp [dispatch, gs_monitor_switch_greeter, gs_monitor_lock_session,
        gs_listener_send_switch_greeter, gs_listener_send_lock_session,
        gs_manager_get_session_visible, call, hv]
  | manager_lock res =>
    cases res <;> cases h : monitor.priv.manager.active <;>
      cases hv : monitor.priv.manager.visible <;> cases hl : monitor.priv.late_locking <;>
      simp [dispatch, manager_lock_cb, gs_monitor_lock_screen, gs_manager_show_content,
        gs_listener_set_active, gs_manager_get_active, gs_manager_get_session_visible,
        g_timeout_add_seconds, with_manager, call, h, hv, hl]
  | listener_locked res =>
    cases res <;> cases h : monitor.priv.manager.active <;>
      simp [dispatch, listener_locked_cb, gs_monitor_lock_screen, gs_manager_show_content,
        gs_listener_set_active, gs_manager_get_active, with_manager, call, h]
  | listener_lock res =>
    cases res <;> cases h : monitor.priv.manager.active <;>
      cases hv : monitor.priv.manager.visible <;>
      simp [dispatch, listener_lock_cb, gs_monitor_lock_screen, gs_manager_show_content,
        gs_listener_set_active, gs_manager_get_active, gs_manager_get_session_visible,
        g_timeout_add_seconds, with_manager, call, h, hv]
  | listener_suspend res =>
    cases res <;> cases h : monitor.priv.manager.active <;>
      cases hs : monitor.priv.lock_on_suspend <;>
      simp [dispatch, listener_suspend_cb, gs_monitor_lock_screen,
        gs_listener_set_active, gs_manager_get_active, with_manager, call, h, hs]
  | listener_resume =>
    cases hs : monitor.priv.lock_on_suspend <;>
      simp [dispatch, listener_resume_cb, g_timeout_add_seconds, call, hs]
  | listener_active_changed active res =>
    cases res <;>
      simp [dispatch, listener_active_changed_cb, gs_manager_set_active, with_manager, call]
  | listener_blanking active answer =>
    cases active <;> cases h : monitor.priv.manager.active <;>
      simp [dispatch, listener_blanking_cb, gs_manager_get_active, call, h]
  | listener_is_blanked =>
    cases h : monitor.priv.manager.active <;>
      simp [dispatch, listener_is_blanked_cb, gs_manager_get_active, h]
  | listener_blanked_time now =>
    simp only [dispatch, listener_blanked_time_cb, listener_is_blanked_cb]
    repeat' split
    all_goals simp
  | manager_activated => simp [dispatch, manager_activated_cb]
  | manager_switch_greeter =>
    simp [dispatch, manager_switch_greeter_cb, gs_listener_send_switch_greeter, call]
  | listener_session_switched active =>
    simp [dispatch, listener_session_switched_cb, gs_manager_set_session_visible,
      with_manager, call]
  | listener_simulate_user_activity =>
    simp [dispatch, listener_simulate_user_activity_cb, call]
  | listener_inhibit active => simp [dispatch, listener_inhibit_cb, call]
  | listener_idle_time answer => simp [dispatch, listener_idle_time_cb, call]

/-- A run without blanking-changed events leaves `blank_start` and the manager's
blank-screen flag alone. -/
theorem run_keeps_blank (evs : List Event) :
    ∀ monitor : GSMonitor, (∀ ev ∈ evs, ev.is_blanking_changed = false) →
      (run evs monitor).priv.blank_start = monitor.priv.blank_start
        ∧ (run evs monitor).priv.manager.blank_screen = monitor.priv.manager.blank_screen := by
  induction evs with
  | nil => intro monitor _; exact ⟨rfl, rfl⟩
  | cons ev evs ih =>
    intro monitor hq
    have hstep := dispatch_keeps_blank ev monitor (hq ev (List.mem_cons_self _ _))
    have hrest := ih (dispatch ev monitor) (fun e he => hq e (List.mem_cons_of_mem _ he))
    rw [run_cons]
    exact ⟨hrest.1.trans hstep.1, hrest.2.trans hstep.2⟩

/-- The is-blanked query answers `TRUE` when the manager's blank-screen flag is set. -/
theorem is_blanked_of_blank_screen (monitor : GSMonitor)
    (h : monitor.priv.manager.blank_screen = true) :
    (listener_is_blanked_cb monitor).1 = true := by
  cases ha : monitor.priv.manager.active <;>
    simp [listener_is_blanked_cb, gs_manager_get_active, gs_manager_get_blank_screen, ha, h]

/-- The handler of blanking-changed(TRUE) sets the blank-screen flag and `blank_start`. -/
theorem blanking_started_effect (T : Int) (monitor : GSMonitor) :
    (listener_x11_blanking_changed_cb true T monitor).priv.blank_start = T
      ∧ (listener_x11_blanking_changed_cb true T monitor).priv.manager.blank_screen = true := by
  simp [listener_x11_blanking_changed_cb, gs_manager_set_blank_screen, with_manager, call]

/-- C8: after blanking-changed(TRUE) handled at a time `T > 0`, and as long as no other
blanking-changed event is handled, the blanked-time query made `k` seconds and `r`
microseconds later (`0 <= r < 1000000`) answers `k`, and its answer does not decrease
when the query time increases. -/
theorem blanked_time_within_episode (T : Int) (k : Nat) (r : Int) (evs : List Event)
    (monitor : GSMonitor) (hT : 0 < T) (hr0 : 0 ≤ r) (hr1 : r < 1000000)
    (hmax : T + k * 1000000 + r ≤ G_MAXINT64)
    (hevs : ∀ ev ∈ evs, ev.is_blanking_changed = false) :
    (listener_blanked_time_cb (T + k * 1000000 + r)
        (run evs (listener_x11_blanking_changed_cb true T monitor))).1 = k
      ∧ ∀ n1 n2 : Int, is_gint64 n1 → is_gint64 n2 → n1 ≤ n2 →
          (listener_blanked_time_cb n1
              (run evs (listener_x11_blanking_changed_cb true T monitor))).1
            ≤ (listener_blanked_time_cb n2
                (run evs (listener_x11_blanking_changed_cb true T monitor))).1 := by
  have hstart := blanking_started_effect T monitor
  have hkeep := run_keeps_blank evs (listener_x11_blanking_changed_cb true T monitor) hevs
  have hbs : (run evs (listener_x11_blanking_changed_cb true T monitor)).priv.blank_start = T :=
    hkeep.1.trans hstart.1
  have hblank : (listener_is_blanked_cb
      (run evs (listener_x11_blanking_changed_cb true T monitor))).1 = true :=
    is_blanked_of_blank_screen _ (hkeep.2.trans hstart.2)
  have hval : ∀ n : Int, is_gint64 n →
      (listener_blanked_time_cb n
          (run evs (listener_x11_blanking_changed_cb true T monitor))).1
        = if T ≤ n then (n - T) / 1000000 else 0 := by
    intro n hn
    rw [blanked_time_value n _ hn, hbs, hblank]
    simp [hT]
  constructor
  · have hq : is_gint64 (T + k * 1000000 + r) := by
      constructor
      · simp only [G_MININT64]; omega
      · exact hmax
    rw [hval _ hq, if_pos (by omega)]
    omega
  · intro n1 n2 h1 h2 hle
    rw [hval n1 h1, hval n2 h2]
    split <;> split <;> omega

/-- Witness for C8. -/
theorem blanked_time_within_episode_witness :
    (0 : Int) < 1000000 ∧ (0 : Int) ≤ 999999 ∧ (999999 : Int) < 1000000
      ∧ (1000000 : Int) + (5 : Nat) * 1000000 + 999999 ≤ G_MAXINT64
      ∧ (∀ ev ∈ [Event.manager_lock true, Event.listener_session_switched true],
            ev.is_blanking_changed = false)
      ∧ (listener_blanked_time_cb (1000000 + (5 : Nat) * 1000000 + 999999)
          (run [Event.manager_lock true, Event.listener_session_switched true]
            (listener_x11_blanking_changed_cb true 1000000 pending_lock_monitor))).1
          = (5 : Nat) :=
  ⟨by decide, by decide, by decide, by decide, by decide,
    (blanked_time_within_episode 1000000 5 999999
      [Event.manager_lock true, Event.listener_session_switched true]
      pending_lock_monitor (by decide) (by decide) (by decide) (by decide) (by decide)).1⟩

/-- C9, as stated, fails: in a locked state the blanked-time query made after
blanking-changed(FALSE) still counts from the `blank_start` of the ended episode. -/
theorem blanked_time_after_unblank_counterexample :
    gs_manager_get_active locked_blanked_monitor.priv.manager = true
      ∧ locked_blanked_monitor.priv.blank_start = 1000000
      ∧ gs_manager_get_blank_screen
          (listener_x11_blanking_changed_cb false 3000000
            locked_blanked_monitor).priv.manager = false
      ∧ (listener_blanked_time_cb 5000000
          (listener_x11_blanking_changed_cb false 3000000 locked_blanked_monitor)).1 = 4
      ∧ (listener_blanked_time_cb 5000000
          (listener_x11_blanking_changed_cb false 3000000 locked_blanked_monitor)).1 ≠ 0 := by
  decide

/-- C9, amended: when the manager does not report active (not locked), blanking-changed
(FALSE) leaves is-blanked false and the blanked-time query made right afterwards
answers 0 at every time; the handler itself does not clear `blank_start`, the query
ignores it. -/
theorem blanked_time_after_unblank (t now : Int) (monitor : GSMonitor)
    (hu : gs_manager_get_active monitor.priv.manager = false) :
    (listener_blanked_time_cb now
        (listener_x11_blanking_changed_cb false t monitor)).1 = 0
      ∧ (listener_is_blanked_cb
          (listener_x11_blanking_changed_cb false t monitor)).1 = false
      ∧ (listener_x11_blanking_changed_cb false t monitor).priv.blank_start
          = monitor.priv.blank_start := by
  simp only [gs_manager_get_active] at hu
  have hblank : (listener_is_blanked_cb
      (listener_x11_blanking_changed_cb false t monitor)).1 = false := by
    cases hp : monitor.priv.perform_lock <;> cases hv : monitor.priv.manager.visible <;>
      simp [listener_is_blanked_cb, listener_x11_blanking_changed_cb,
        gs_manager_set_blank_screen, gs_manager_get_active, gs_manager_get_blank_screen,
        gs_manager_get_session_visible, gs_listener_send_lock_session, with_manager, call,
        hu, hp, hv]
  refine ⟨?_, hblank, ?_⟩
  · simp only [listener_blanked_time_cb, hblank]
    simp
  · simp [listener_x11_blanking_changed_cb, gs_manager_set_blank_screen, with_manager, call]
    split <;> rfl

/-- Witness for C9 (amended). -/
theorem blanked_time_after_unblank_witness :
    gs_manager_get_active
        (listener_x11_blanking_changed_cb true 1000000
          (gs_monitor_new false false 300 false false)).priv.manager = false
      ∧ (listener_blanked_time_cb 5000000
          (listener_x11_blanking_changed_cb false 3000000
            (listener_x11_blanking_changed_cb true 1000000
              (gs_monitor_new false false 300 false false)))).1 = 0 :=
  ⟨by decide,
    (blanked_time_after_unblank 3000000 5000000
      (listener_x11_blanking_changed_cb true 1000000
        (gs_monitor_new false false 300 false false))
      (by decide)).1⟩

/-- C10: with `lock_on_suspend` clear the suspend handler returns the monitor as it
was, no call made; with it set the handler is exactly `gs_monitor_lock_screen`, so the
calls it makes (one `gs_listener_set_active (TRUE)` unless the manager already reports
active) do not depend on session visibility, the blank-screen flag or `perform_lock`. -/
theorem listener_suspend_cb_gated_by_lock_on_suspend (res : Bool) (monitor : GSMonitor) :
    listener_suspend_cb res monitor
        = (if monitor.priv.lock_on_suspend = true then gs_monitor_lock_screen res monitor
           else monitor)
      ∧ (listener_suspend_cb res monitor).calls
          = monitor.calls
            ++ (if monitor.priv.lock_on_suspend = true
                    ∧ gs_manager_get_active monitor.priv.manager = false then
                  [Cmd.gs_listener_set_active true]
                else [])
      ∧ ∀ visible blank_screen perform_lock : Bool,
          (listener_suspend_cb res
              { priv :=
                  { manager :=
                      { active := monitor.priv.manager.active, visible := visible,
                        blank_screen := blank_screen,
                        lock_after := monitor.priv.manager.lock_after }
                    blank_start := monitor.priv.blank_start
                    late_locking := monitor.priv.late_locking
                    lock_on_suspend := monitor.priv.lock_on_suspend
                    perform_lock := perform_lock }
                calls := monitor.calls }).calls
            = (listener_suspend_cb res monitor).calls := by
  cases res <;> cases ha : monitor.priv.manager.active <;>
    cases hs : monitor.priv.lock_on_suspend <;>
    simp [listener_suspend_cb, gs_monitor_lock_screen, gs_listener_set_active,
      gs_manager_get_active, with_manager, call, ha, hs]

/-- The effect of `gs_monitor_lock_screen`: at most one `gs_listener_set_active (TRUE)`
call, and nothing of the monitor touched but the manager's active flag. -/
theorem gs_monitor_lock_screen_effect (res : Bool) (monitor : GSMonitor) :
    (gs_monitor_lock_screen res monitor).calls
        = monitor.calls
          ++ (if monitor.priv.manager.active = true then []
              else [Cmd.gs_listener_set_active true])
      ∧ (gs_monitor_lock_screen res monitor).priv.manager.active
          = (monitor.priv.manager.active || res)
      ∧ (gs_monitor_lock_screen res monitor).priv.manager.visible
          = monitor.priv.manager.visible
      ∧ (gs_monitor_lock_screen res monitor).priv.manager.blank_screen
          = monitor.priv.manager.blank_screen
      ∧ (gs_monitor_lock_screen res monitor).priv.blank_start = monitor.priv.blank_start
      ∧ (gs_monitor_lock_screen res monitor).priv.perform_lock = monitor.priv.perform_lock
      ∧ (gs_monitor_lock_screen res monitor).priv.late_locking = monitor.priv.late_locking
      ∧ (gs_monitor_lock_screen res monitor).priv.lock_on_suspend
          = monitor.priv.lock_on_suspend := by
  cases res <;> cases ha : monitor.priv.manager.active <;>
    simp [gs_monitor_lock_screen, gs_listener_set_active, gs_manager_get_active,
      with_manager, call, ha]

/-- C11: for a monitor with `late_locking` clear whose session is visible and which is
not locked, the manager's `lock` signal makes exactly two calls, the lock attempt
`gs_listener_set_active (TRUE)` and then one `g_timeout_add_seconds (1,
gs_monitor_lock_session)`; when that timer fires with the session still visible it
makes exactly one `gs_listener_send_lock_session` call, installs no timer and returns
`FALSE`, so it is not run again. -/
theorem lock_event_schedules_one_lock_session (res : Bool) (monitor : GSMonitor)
    (hl : monitor.priv.late_locking = false)
    (hv : gs_manager_get_session_visible monitor.priv.manager = true)
    (ha : gs_manager_get_active monitor.priv.manager = false) :
    (manager_lock_cb res monitor).calls
        = monitor.calls
          ++ [Cmd.gs_listener_set_active true,
              Cmd.g_timeout_add_seconds 1 GSourceFunc.gs_monitor_lock_session]
      ∧ gs_manager_get_session_visible (manager_lock_cb res monitor).priv.manager = true
      ∧ (gs_monitor_lock_session (manager_lock_cb res monitor)).1 = false
      ∧ (gs_monitor_lock_session (manager_lock_cb res monitor)).2.calls
          = (manager_lock_cb res monitor).calls ++ [Cmd.gs_listener_send_lock_session]
      ∧ (gs_monitor_lock_session (manager_lock_cb res monitor)).2.priv
          = (manager_lock_cb res monitor).priv
      ∧ lock_session_calls (manager_lock_cb res monitor) = lock_session_calls monitor
      ∧ lock_session_calls (gs_monitor_lock_session (manager_lock_cb res monitor)).2
          = lock_session_calls monitor + 1
      ∧ (∀ later : GSMonitor,
          gs_manager_get_session_visible later.priv.manager = true →
            gs_monitor_lock_session later
              = (false,
                  { later with calls := later.calls ++ [Cmd.gs_listener_send_lock_session] }))
      := by
  simp only [gs_manager_get_session_visible, gs_manager_get_active] at hv ha
  refine ⟨?_, ?_, ?_, ?_, ?_, ?_, ?_, ?_⟩
  all_goals first
    | (cases res <;>
        simp [manager_lock_cb, gs_monitor_lock_session, gs_monitor_lock_screen,
          gs_listener_set_active, gs_listener_send_lock_session, gs_manager_get_active,
          gs_manager_get_session_visible, g_timeout_add_seconds, with_manager, call,
          lock_session_calls, hl, hv, ha]; done)
    | (intro later hlater
       simp only [gs_manager_get_session_visible] at hlater
       simp [gs_monitor_lock_session, gs_listener_send_lock_session,
         gs_manager_get_session_visible, call, hlater])

/-- Witness for C11: the monitor built with `lock_after = 300`, `late_locking = FALSE`,
`lock_on_suspend = TRUE`, once its session is visible. -/
theorem lock_event_schedules_one_lock_session_witness :
    (run [Event.listener_session_switched true]
        (gs_monitor_new false false 300 false true)).priv.late_locking = false
      ∧ gs_manager_get_session_visible
          (run [Event.listener_session_switched true]
            (gs_monitor_new false false 300 false true)).priv.manager = true
      ∧ gs_manager_get_active
          (run [Event.listener_session_switched true]
            (gs_monitor_new false false 300 false true)).priv.manager = false
      ∧ (manager_lock_cb true
          (run [Event.listener_session_switched true]
            (gs_monitor_new false false 300 false true))).calls
          = (run [Event.listener_session_switched true]
              (gs_monitor_new false false 300 false true)).calls
            ++ [Cmd.gs_listener_set_active true,
                Cmd.g_timeout_add_seconds 1 GSourceFunc.gs_monitor_lock_session] :=
  ⟨by decide, by decide, by decide,
    (lock_event_schedules_one_lock_session true
      (run [Event.listener_session_switched true]
        (gs_monitor_new false false 300 false true))
      (by decide) (by decide) (by decide)).1⟩

/-- C12: with `lock_on_suspend` set, suspend followed by resume is the lock attempt of
`gs_monitor_lock_screen` followed by exactly one `g_timeout_add_seconds (1,
gs_monitor_switch_greeter)`, and neither handler sends a switch command; the timer's
function, whenever it runs, makes one `gs_listener_send_switch_greeter` call if the
session is visible at that moment and does nothing if it is not, returning `FALSE`
either way; with `lock_on_suspend` clear resume returns the monitor as it was. -/
theorem suspend_resume_schedules_revalidated_greeter_switch (res : Bool)
    (monitor later : GSMonitor) :
    run [Event.listener_suspend res, Event.listener_resume] monitor
        = (if monitor.priv.lock_on_suspend = true then
            g_timeout_add_seconds 1 GSourceFunc.gs_monitor_switch_greeter
              (gs_monitor_lock_screen res monitor)
           else monitor)
      ∧ (run [Event.listener_suspend res, Event.listener_resume] monitor).calls
          = monitor.calls
            ++ (if monitor.priv.lock_on_suspend = true then
                  (if gs_manager_get_active monitor.priv.manager = true then []
                   else [Cmd.gs_listener_set_active true])
                  ++ [Cmd.g_timeout_add_seconds 1 GSourceFunc.gs_monitor_switch_greeter]
                else [])
      ∧ (listener_resume_cb monitor).calls
          = monitor.calls
            ++ (if monitor.priv.lock_on_suspend = true then
                  [Cmd.g_timeout_add_seconds 1 GSourceFunc.gs_monitor_switch_greeter]
                else [])
      ∧ (listener_resume_cb monitor).priv = monitor.priv
      ∧ switch_greeter_calls (run [Event.listener_suspend res, Event.listener_resume] monitor)
          = switch_greeter_calls monitor
      ∧ gs_monitor_switch_greeter later
          = (false,
              if gs_manager_get_session_visible later.priv.manager = true then
                { later with calls := later.calls ++ [Cmd.gs_listener_send_switch_greeter] }
              else later)
      ∧ (switch_greeter_calls (gs_monitor_switch_greeter later).2
            = switch_greeter_calls later + 1
          ↔ gs_manager_get_session_visible later.priv.manager = true) := by
  refine ⟨?_, ?_, ?_, ?_, ?_, ?_, ?_⟩
  · cases hs : monitor.priv.lock_on_suspend
    · simp [run, dispatch, listener_suspend_cb, listener_resume_cb, hs]
    · have hkeep := (gs_monitor_lock_screen_effect res monitor).2.2.2.2.2.2.2
      simp [run, dispatch, listener_suspend_cb, listener_resume_cb, hs, hkeep]
  · cases hs : monitor.priv.lock_on_suspend <;> cases res <;>
      cases ha : monitor.priv.manager.active <;>
      simp [run, dispatch, listener_suspend_cb, listener_resume_cb, gs_monitor_lock_screen,
        gs_listener_set_active, gs_manager_get_active, g_timeout_add_seconds, with_manager,
        call, hs, ha]
  · cases hs : monitor.priv.lock_on_suspend <;>
      simp [listener_resume_cb, g_timeout_add_seconds, call, hs]
  · cases hs : monitor.priv.lock_on_suspend <;>
      simp [listener_resume_cb, g_timeout_add_seconds, call, hs]
  · cases hs : monitor.priv.lock_on_suspend <;> cases res <;>
      cases ha : monitor.priv.manager.active <;>
      simp [run, dispatch, listener_suspend_cb, listener_resume_cb, gs_monitor_lock_screen,
        gs_listener_set_active, gs_manager_get_active, g_timeout_add_seconds, with_manager,
        call, switch_greeter_calls, hs, ha]
  · cases hv : later.priv.manager.visible <;>
      simp [gs_monitor_switch_greeter, gs_listener_send_switch_greeter,
        gs_manager_get_session_visible, call, hv]
  · cases hv : later.priv.manager.visible <;>
      simp [gs_monitor_switch_greeter, gs_listener_send_switch_greeter,
        gs_manager_get_session_visible, call, switch_greeter_calls, hv]

/-- C13: `gs_monitor_lock_screen` makes exactly one call, `gs_listener_set_active
(TRUE)`, when the manager does not report active, and returns the monitor as it was,
no call made, when it does; whatever the listener answers, `blank_start`,
`perform_lock`, `late_locking` and `lock_on_suspend` keep their values. -/
theorem gs_monitor_lock_screen_one_attempt_unless_locked (res : Bool) (monitor : GSMonitor) :
    (gs_monitor_lock_screen res monitor).calls
        = monitor.calls
          ++ (if gs_manager_get_active monitor.priv.manager = true then []
              else [Cmd.gs_listener_set_active true])
      ∧ (if gs_manager_get_active monitor.priv.manager = true then
          gs_monitor_lock_screen res monitor = monitor
         else
          (gs_monitor_lock_screen res monitor).calls.count (Cmd.gs_listener_set_active true)
            = monitor.calls.count (Cmd.gs_listener_set_active true) + 1)
      ∧ (gs_monitor_lock_screen res monitor).priv.blank_start = monitor.priv.blank_start
      ∧ (gs_monitor_lock_screen res monitor).priv.perform_lock = monitor.priv.perform_lock
      ∧ (gs_monitor_lock_screen res monitor).priv.late_locking = monitor.priv.late_locking
      ∧ (gs_monitor_lock_screen res monitor).priv.lock_on_suspend
          = monitor.priv.lock_on_suspend := by
  cases res <;> cases ha : monitor.priv.manager.active <;>
    simp [gs_monitor_lock_screen, gs_listener_set_active, gs_manager_get_active,
      with_manager, call, ha]

/-- C14: `listener_x11_blanking_changed_cb` called with value `active` at time `now`
sets the manager's blank-screen flag to `active`, sets `blank_start` to `now` when
`active` is TRUE and keeps it otherwise, makes exactly one
`gs_listener_send_lock_session` call when `active` is FALSE, `perform_lock` is set and
the session is visible, and none otherwise, and leaves `perform_lock` clear in every
case. -/
theorem listener_x11_blanking_changed_cb_effect (active : Bool) (now : Int)
    (monitor : GSMonitor) :
    gs_manager_get_blank_screen
        (listener_x11_blanking_changed_cb active now monitor).priv.manager = active
      ∧ (listener_x11_blanking_changed_cb active now monitor).priv.blank_start
          = (if active = true then now else monitor.priv.blank_start)
      ∧ (listener_x11_blanking_changed_cb active now monitor).calls
          = monitor.calls ++ [Cmd.gs_manager_set_blank_screen active]
            ++ (if active = false ∧ monitor.priv.perform_lock = true
                    ∧ gs_manager_get_session_visible monitor.priv.manager = true then
                  [Cmd.gs_listener_send_lock_session]
                else [])
      ∧ lock_session_calls (listener_x11_blanking_changed_cb active now monitor)
          = lock_session_calls monitor
            + (if active = false ∧ monitor.priv.perform_lock = true
                    ∧ gs_manager_get_session_visible monitor.priv.manager = true then 1
               else 0)
      ∧ (listener_x11_blanking_changed_cb active now monitor).priv.perform_lock = false
      ∧ (listener_x11_blanking_changed_cb active now monitor).priv.late_locking
          = monitor.priv.late_locking
      ∧ (listener_x11_blanking_changed_cb active now monitor).priv.lock_on_suspend
          = monitor.priv.lock_on_suspend
      ∧ gs_manager_get_active
          (listener_x11_blanking_changed_cb active now monitor).priv.manager
          = gs_manager_get_active monitor.priv.manager
      ∧ gs_manager_get_session_visible
          (listener_x11_blanking_changed_cb active now monitor).priv.manager
          = gs_manager_get_session_visible monitor.priv.manager := by
  cases active <;> cases hp : monitor.priv.perform_lock <;>
    cases hv : monitor.priv.manager.visible <;>
    simp [listener_x11_blanking_changed_cb, gs_manager_set_blank_screen,
      gs_manager_get_session_visible, gs_manager_get_blank_screen, gs_manager_get_active,
      gs_listener_send_lock_session, with_manager, call, lock_session_calls, hp, hv]

/-- C15: `manager_lock_cb` first makes the lock attempt of `gs_monitor_lock_screen`;
then, with `late_locking` set, it sets `perform_lock` and makes no further call,
whatever the visibility is; with `late_locking` clear and the session visible it
installs exactly one timer for `gs_monitor_lock_session` and keeps `perform_lock`; with
`late_locking` clear and the session not visible it calls `gs_manager_show_content` and
installs no timer. -/
theorem manager_lock_cb_by_policy (res : Bool) (monitor : GSMonitor) :
    (manager_lock_cb res monitor).calls
        = (gs_monitor_lock_screen res monitor).calls
          ++ (if monitor.priv.late_locking = true then []
              else if gs_manager_get_session_visible monitor.priv.manager = true then
                [Cmd.g_timeout_add_seconds 1 GSourceFunc.gs_monitor_lock_session]
              else [Cmd.gs_manager_show_content])
      ∧ (manager_lock_cb res monitor).calls
          = monitor.calls
            ++ (if gs_manager_get_active monitor.priv.manager = true then []
                else [Cmd.gs_listener_set_active true])
            ++ (if monitor.priv.late_locking = true then []
                else if gs_manager_get_session_visible monitor.priv.manager = true then
                  [Cmd.g_timeout_add_seconds 1 GSourceFunc.gs_monitor_lock_session]
                else [Cmd.gs_manager_show_content])
      ∧ (manager_lock_cb res monitor).priv.perform_lock
          = (if monitor.priv.late_locking = true then true else monitor.priv.perform_lock)
      ∧ (manager_lock_cb res monitor).priv.manager
          = (gs_monitor_lock_screen res monitor).priv.manager
      ∧ (manager_lock_cb res monitor).priv.blank_start = monitor.priv.blank_start
      ∧ (manager_lock_cb res monitor).priv.late_locking = monitor.priv.late_locking
      ∧ (manager_lock_cb res monitor).priv.lock_on_suspend = monitor.priv.lock_on_suspend := by
  cases res <;> cases ha : monitor.priv.manager.active <;>
    cases hl : monitor.priv.late_locking <;> cases hv : monitor.priv.manager.visible <;>
    simp [manager_lock_cb, gs_monitor_lock_screen, gs_listener_set_active,
      gs_manager_get_active, gs_manager_get_session_visible, gs_manager_show_content,
      g_timeout_add_seconds, with_manager, call, ha, hl, hv]

/-- C16: `listener_locked_cb` calls `gs_manager_show_content`, then makes the lock
attempt of `gs_monitor_lock_screen`, and leaves `perform_lock` clear; it makes no
`gs_listener_send_lock_session` and no `gs_listener_send_switch_greeter` call and keeps
`blank_start`, `late_locking` and `lock_on_suspend`. -/
theorem listener_locked_cb_shows_content_then_locks (res : Bool) (monitor : GSMonitor) :
    listener_locked_cb res monitor
        = { priv :=
              { (gs_monitor_lock_screen res (gs_manager_show_content monitor)).priv with
                perform_lock := false }
            calls := (gs_monitor_lock_screen res (gs_manager_show_content monitor)).calls }
      ∧ (listener_locked_cb res monitor).calls
          = monitor.calls ++ [Cmd.gs_manager_show_content]
            ++ (if gs_manager_get_active monitor.priv.manager = true then []
                else [Cmd.gs_listener_set_active true])
      ∧ (listener_locked_cb res monitor).priv.perform_lock = false
      ∧ lock_session_calls (listener_locked_cb res monitor) = lock_session_calls monitor
      ∧ switch_greeter_calls (listener_locked_cb res monitor) = switch_greeter_calls monitor
      ∧ (listener_locked_cb res monitor).priv.blank_start = monitor.priv.blank_start
      ∧ (listener_locked_cb res monitor).priv.late_locking = monitor.priv.late_locking
      ∧ (listener_locked_cb res monitor).priv.lock_on_suspend
          = monitor.priv.lock_on_suspend := by
  cases res <;> cases ha : monitor.priv.manager.active <;>
    simp [listener_locked_cb, gs_monitor_lock_screen, gs_listener_set_active,
      gs_manager_get_active, gs_manager_show_content, with_manager, call,
      lock_session_calls, switch_greeter_calls, ha]

/-- C17: when `gs_listener_acquire` fails, `gs_monitor_start` hands back the failure with
the listener's error as it is, `gs_listener_x11_acquire` is not called, and the only
call made is the failed `gs_listener_acquire`, so no lock, switch or show-content
command; when it succeeds, `gs_listener_x11_acquire` is called next and start
succeeds; the monitor's fields are untouched either way. -/
theorem gs_monitor_start_forwards_acquire_failure {ε : Type} (e : ε) (monitor : GSMonitor) :
    (gs_monitor_start (Except.error e) monitor).1 = Except.error e
      ∧ (gs_monitor_start (Except.error e) monitor).2.calls
          = monitor.calls ++ [Cmd.gs_listener_acquire]
      ∧ (gs_monitor_start (Except.error e) monitor).2.calls.count Cmd.gs_listener_x11_acquire
          = monitor.calls.count Cmd.gs_listener_x11_acquire
      ∧ (gs_monitor_start (Except.error e) monitor).2.priv = monitor.priv
      ∧ (gs_monitor_start (Except.ok () : Except ε Unit) monitor).1 = Except.ok ()
      ∧ (gs_monitor_start (Except.ok () : Except ε Unit) monitor).2.calls
          = monitor.calls ++ [Cmd.gs_listener_acquire, Cmd.gs_listener_x11_acquire]
      ∧ (gs_monitor_start (Except.ok () : Except ε Unit) monitor).2.priv = monitor.priv := by
  simp [gs_monitor_start, call]

/-- No callback writes `late_locking` or `lock_on_suspend`. -/
theorem dispatch_keeps_policy (ev : Event) (monitor : GSMonitor) :
    (dispatch ev monitor).priv.late_locking = monitor.priv.late_locking
      ∧ (dispatch ev monitor).priv.lock_on_suspend = monitor.priv.lock_on_suspend := by
  cases ev with
  | listener_x11_blanking_changed active now =>
    cases active <;> cases hp : monitor.priv.perform_lock <;>
      cases hv : monitor.priv.manager.visible <;>
      simp [dispatch, listener_x11_blanking_changed_cb, gs_manager_set_blank_screen,
        gs_manager_get_session_visible, gs_listener_send_lock_session, with_manager, call,
        hp, hv]
  | timeout f =>
    cases f <;> cases hv : monitor.priv.manager.visible <;>
      simp [dispatch, gs_monitor_switch_greeter, gs_monitor_lock_session,
        gs_listener_send_switch_greeter, gs_listener_send_lock_session,
        gs_manager_get_session_visible, call, hv]
  | manager_lock res =>
    cases res <;> cases h : monitor.priv.manager.active <;>
      cases hv : monitor.priv.manager.visible <;> cases hl : monitor.priv.late_locking <;>
      simp [dispatch, manager_lock_cb, gs_monitor_lock_screen, gs_manager_show_content,
        gs_listener_set_active, gs_manager_get_active, gs_manager_get_session_visible,
        g_timeout_add_seconds, with_manager, call, h, hv, hl]
  | listener_locked res =>
    cases res <;> cases h : monitor.priv.manager.active <;>
      simp [dispatch, listener_locked_cb, gs_monitor_lock_screen, gs_manager_show_content,
        gs_listener_set_active, gs_manager_get_active, with_manager, call, h]
  | listener_lock res =>
    cases res <;> cases h : monitor.priv.manager.active <;>
      cases hv : monitor.priv.manager.visible <;>
      simp [dispatch, listener_lock_cb, gs_monitor_lock_screen, gs_manager_show_content,
        gs_listener_set_active, gs_manager_get_active, gs_manager_get_session_visible,
        g_timeout_add_seconds, with_manager, call, h, hv]
  | listener_suspend res =>
    cases res <;> cases h : monitor.priv.manager.active <;>
      cases hs : monitor.priv.lock_on_suspend <;>
      simp [dispatch, listener_suspend_cb, gs_monitor_lock_screen,
        gs_listener_set_active, gs_manager_get_active, with_manager, call, h, hs]
  | listener_resume =>
    cases hs : monitor.priv.lock_on_suspend <;>
      simp [dispatch, listener_resume_cb, g_timeout_add_seconds, call, hs]
  | listener_active_changed active res =>
    cases res <;>
      simp [dispatch, listener_active_changed_cb, gs_manager_set_active, with_manager, call]
  | listener_blanking active answer =>
    cases active <;> cases h : monitor.priv.manager.active <;>
      simp [dispatch, listener_blanking_cb, gs_manager_get_active, call, h]
  | listener_is_blanked =>
    cases h : monitor.priv.manager.active <;>
      simp [dispatch, listener_is_blanked_cb, gs_manager_get_active, h]
  | listener_blanked_time now =>
    simp only [dispatch, listener_blanked_time_cb, listener_is_blanked_cb]
    repeat' split
    all_goals simp
  | manager_activated => simp [dispatch, manager_activated_cb]
  | manager_switch_greeter =>
    simp [dispatch, manager_switch_greeter_cb, gs_listener_send_switch_greeter, call]
  | listener_session_switched active =>
    simp [dispatch, listener_session_switched_cb, gs_manager_set_session_visible,
      with_manager, call]
  | listener_simulate_user_activity =>
    simp [dispatch, listener_simulate_user_activity_cb, call]
  | listener_inhibit active => simp [dispatch, listener_inhibit_cb, call]
  | listener_idle_time answer => simp [dispatch, listener_idle_time_cb, call]

/-- Without late locking no callback sets `perform_lock`. -/
theorem dispatch_keeps_no_pending (ev : Event) (monitor : GSMonitor)
    (hl : monitor.priv.late_locking = false) (hp : monitor.priv.perform_lock = false) :
    (dispatch ev monitor).priv.perform_lock = false := by
  by_cases hq : ev.quiet = true
  · exact (dispatch_quiet ev monitor hq hp).1
  · cases ev with
    | manager_lock res =>
      cases res <;> cases h : monitor.priv.manager.active <;>
        cases hv : monitor.priv.manager.visible <;>
        simp [dispatch, manager_lock_cb, gs_monitor_lock_screen, gs_manager_show_content,
          gs_listener_set_active, gs_manager_get_active, gs_manager_get_session_visible,
          g_timeout_add_seconds, with_manager, call, h, hv, hl, hp]
    | timeout f =>
      cases f with
      | gs_monitor_lock_session =>
        cases hv : monitor.priv.manager.visible <;>
          simp [dispatch, gs_monitor_lock_session, gs_listener_send_lock_session,
            gs_manager_get_session_visible, call, hv, hp]
      | gs_monitor_switch_greeter => exact absurd rfl hq
    | _ => exact absurd rfl hq

/-- Along any run the policy flags keep their values, and without late locking
`perform_lock` stays clear. -/
theorem run_keeps_policy (evs : List Event) :
    ∀ monitor : GSMonitor,
      (run evs monitor).priv.late_locking = monitor.priv.late_locking
        ∧ (run evs monitor).priv.lock_on_suspend = monitor.priv.lock_on_suspend
        ∧ (monitor.priv.late_locking = false → monitor.priv.perform_lock = false →
            (run evs monitor).priv.perform_lock = false) := by
  induction evs with
  | nil => intro monitor; exact ⟨rfl, rfl, fun _ hp => hp⟩
  | cons ev evs ih =>
    intro monitor
    have hstep := dispatch_keeps_policy ev monitor
    have hrest := ih (dispatch ev monitor)
    rw [run_cons]
    refine ⟨hrest.1.trans hstep.1, hrest.2.1.trans hstep.2, ?_⟩
    intro hl hp
    exact hrest.2.2 (hstep.1.trans hl) (dispatch_keeps_no_pending ev monitor hl hp)

/-- C18: in every state reached from `gs_monitor_new` with `late_locking = FALSE` by any
sequence of events (timer firings included) `perform_lock` is clear, so a
blanking-changed event handled there makes no `gs_listener_send_lock_session` call;
and no event, from any state, changes `late_locking` or `lock_on_suspend`. -/
theorem no_pending_lock_without_late_locking
    (with_late_locking with_lock_on_suspend lock_on_suspend : Bool)
    (lock_after_screensaver : Int) (evs : List Event) :
    (run evs (gs_monitor_new with_late_locking with_lock_on_suspend
        lock_after_screensaver false lock_on_suspend)).priv.perform_lock = false
      ∧ (∀ (active : Bool) (now : Int),
          lock_session_calls
              (listener_x11_blanking_changed_cb active now
                (run evs (gs_monitor_new with_late_locking with_lock_on_suspend
                  lock_after_screensaver false lock_on_suspend)))
            = lock_session_calls
                (run evs (gs_monitor_new with_late_locking with_lock_on_suspend
                  lock_after_screensaver false lock_on_suspend)))
      ∧ (run evs (gs_monitor_new with_late_locking with_lock_on_suspend
          lock_after_screensaver false lock_on_suspend)).priv.late_locking = false
      ∧ (run evs (gs_monitor_new with_late_locking with_lock_on_suspend
          lock_after_screensaver false lock_on_suspend)).priv.lock_on_suspend
          = lock_on_suspend
      ∧ (∀ (ev : Event) (monitor : GSMonitor),
          (dispatch ev monitor).priv.late_locking = monitor.priv.late_locking
            ∧ (dispatch ev monitor).priv.lock_on_suspend = monitor.priv.lock_on_suspend)
      ∧ (∀ (late_locking : Bool) (more : List Event),
          (run more (gs_monitor_new with_late_locking with_lock_on_suspend
              lock_after_screensaver late_locking lock_on_suspend)).priv.late_locking
              = late_locking
            ∧ (run more (gs_monitor_new with_late_locking with_lock_on_suspend
                lock_after_screensaver late_locking lock_on_suspend)).priv.lock_on_suspend
              = lock_on_suspend) := by
  have hnew : ∀ late_locking : Bool,
      (gs_monitor_new with_late_locking with_lock_on_suspend
          lock_after_screensaver late_locking lock_on_suspend).priv.late_locking
          = late_locking
        ∧ (gs_monitor_new with_late_locking with_lock_on_suspend
            lock_after_screensaver late_locking lock_on_suspend).priv.lock_on_suspend
          = lock_on_suspend
        ∧ (gs_monitor_new with_late_locking with_lock_on_suspend
            lock_after_screensaver late_locking lock_on_suspend).priv.perform_lock
          = false := by
    intro late_locking
    simp [gs_monitor_new, gs_monitor_init, gs_manager_set_lock_after, with_manager, call]
  have hrun := run_keeps_policy evs (gs_monitor_new with_late_locking with_lock_on_suspend
    lock_after_screensaver false lock_on_suspend)
  have hp := hrun.2.2 (hnew false).1 (hnew false).2.2
  refine ⟨hp, ?_, hrun.1.trans (hnew false).1, hrun.2.1.trans (hnew false).2.1,
    dispatch_keeps_policy, ?_⟩
  · intro active now
    rw [(blanking_changed_effect active now _).2.2, hp]
    simp
  · intro late_locking more
    have h := run_keeps_policy more (gs_monitor_new with_late_locking with_lock_on_suspend
      lock_after_screensaver late_locking lock_on_suspend)
    exact ⟨h.1.trans (hnew late_locking).1, h.2.1.trans (hnew late_locking).2.1⟩

/-- C19: `listener_lock_cb` does not read `late_locking`: for either value of the flag
it keeps `perform_lock` as it was and, after the lock attempt of
`gs_monitor_lock_screen`, installs one timer for `gs_monitor_lock_session` when the
session is visible and calls `gs_manager_show_content` when it is not; its result is
the result of `manager_lock_cb` exactly when `late_locking` is clear. -/
theorem listener_lock_cb_ignores_late_locking (res : Bool) (monitor : GSMonitor) :
    (listener_lock_cb res monitor).priv.perform_lock = monitor.priv.perform_lock
      ∧ (listener_lock_cb res monitor).calls
          = (gs_monitor_lock_screen res monitor).calls
            ++ (if gs_manager_get_session_visible monitor.priv.manager = true then
                  [Cmd.g_timeout_add_seconds 1 GSourceFunc.gs_monitor_lock_session]
                else [Cmd.gs_manager_show_content])
      ∧ (listener_lock_cb res monitor).calls
          = monitor.calls
            ++ (if gs_manager_get_active monitor.priv.manager = true then []
                else [Cmd.gs_listener_set_active true])
            ++ (if gs_manager_get_session_visible monitor.priv.manager = true then
                  [Cmd.g_timeout_add_seconds 1 GSourceFunc.gs_monitor_lock_session]
                else [Cmd.gs_manager_show_content])
      ∧ (∀ late_locking : Bool,
          (listener_lock_cb res
              { monitor with priv := { monitor.priv with late_locking := late_locking } })
            = { listener_lock_cb res monitor with
                priv := { (listener_lock_cb res monitor).priv with
                          late_locking := late_locking } })
      ∧ (listener_lock_cb res monitor = manager_lock_cb res monitor
          ↔ monitor.priv.late_locking = false) := by
  cases res <;> cases ha : monitor.priv.manager.active <;>
    cases hl : monitor.priv.late_locking <;> cases hv : monitor.priv.manager.visible <;>
    simp [listener_lock_cb, manager_lock_cb, gs_monitor_lock_screen, gs_listener_set_active,
      gs_manager_get_active, gs_manager_get_session_visible, gs_manager_show_content,
      g_timeout_add_seconds, with_manager, call, calls_append_ne, ha, hl, hv]

/-- C20: `manager_switch_greeter_cb` makes exactly one `gs_listener_send_switch_greeter`
call in every state, visible session or not, and touches no field of the monitor; the
delayed `gs_monitor_switch_greeter` makes that call only when the session is visible,
so the two agree exactly on the states whose session is visible. -/
theorem manager_switch_greeter_cb_not_visibility_gated (monitor : GSMonitor) :
    manager_switch_greeter_cb monitor
        = { monitor with calls := monitor.calls ++ [Cmd.gs_listener_send_switch_greeter] }
      ∧ switch_greeter_calls (manager_switch_greeter_cb monitor)
          = switch_greeter_calls monitor + 1
      ∧ (manager_switch_greeter_cb monitor).priv = monitor.priv
      ∧ (gs_monitor_switch_greeter monitor).2
          = (if gs_manager_get_session_visible monitor.priv.manager = true then
              manager_switch_greeter_cb monitor
             else monitor)
      ∧ ((gs_monitor_switch_greeter monitor).2 = manager_switch_greeter_cb monitor
          ↔ gs_manager_get_session_visible monitor.priv.manager = true) := by
  have hne : ¬ monitor
      = { priv := monitor.priv,
          calls := monitor.calls ++ [Cmd.gs_listener_send_switch_greeter] } := by
    intro h
    have hcalls := congrArg GSMonitor.calls h
    simp at hcalls
  cases hv : monitor.priv.manager.visible <;>
    simp [manager_switch_greeter_cb, gs_monitor_switch_greeter,
      gs_listener_send_switch_greeter, gs_manager_get_session_visible, call,
      switch_greeter_calls, hv, hne]

end GsMonitor
